import Mathlib

/- Verification of the domain autoscale pipeline orchestrator found in
   automation/domain-autoscale-integration.py: the Python string scraping
   is embedded over lists of characters, and the four-phase pipeline
   (fetch, categorize, assign, verify) is embedded as explicit state
   passing over a record mirroring the script's `self.results` aggregate,
   with the outcomes of the external commands and file-system operations
   supplied by an environment record. -/

namespace DomainAutoscale

/-- Strings are modelled as lists of characters, so that every string
operation used by the script is structurally recursive and computable. -/
abbrev Str := List Char

/-- Converts a Lean string literal to the character-list representation. -/
def str (s : String) : Str := s.data

/-- Python `s.startswith(p)` on character lists. -/
def strStartsWith : Str → Str → Bool
  | _, [] => true
  | [], _ :: _ => false
  | c :: s, p :: ps => c == p && strStartsWith s ps

/-- Python `pat in s`: substring containment. -/
def containsSub : Str → Str → Bool
  | [], pat => pat.isEmpty
  | c :: rest, pat => strStartsWith (c :: rest) pat || containsSub rest pat

/-- The whitespace characters stripped by Python `str.strip()` (the ASCII ones,
which are the only ones the script's inputs can contain). -/
def isWs (c : Char) : Bool :=
  c == ' ' || c == '\t' || c == '\n' || c == '\r' || c == '\x0b' || c == '\x0c'

/-- Python `s.strip()`. -/
def trimStr (s : Str) : Str :=
  ((s.dropWhile isWs).reverse.dropWhile isWs).reverse

/-- Python `s.lower()` (ASCII lowering, as used for the account-id filter). -/
def lowerStr (s : Str) : Str := s.map Char.toLower

/-- Splits `s` at the first occurrence of `pat`: returns the part before the
occurrence and the part after it, or `none` if `pat` does not occur. -/
def splitOnFirst : Str → Str → Option (Str × Str)
  | [], pat => if strStartsWith [] pat then some ([], []) else none
  | c :: rest, pat =>
    if strStartsWith (c :: rest) pat then some ([], (c :: rest).drop pat.length)
    else
      match splitOnFirst rest pat with
      | some p => some (c :: p.1, p.2)
      | none => none

/-- Python `s.split(sep, 1)[1]`: everything after the first occurrence of
`sep`. In the script this access is always guarded by `sep in s`, so the
`none` branch (Python would raise) is mapped to the empty string. -/
def pySplit1After (sep s : Str) : Str :=
  match splitOnFirst s sep with
  | some p => p.2
  | none => []

/-- Python `s.split(sep)[0]`: everything before the first occurrence of
`sep`, or all of `s` if `sep` does not occur. -/
def pyIdx0 (sep s : Str) : Str :=
  match splitOnFirst s sep with
  | some p => p.1
  | none => s

/-- Python `s.split(sep)[1]`: the segment between the first and the second
occurrence of `sep`. `none` models the `IndexError` Python raises when `sep`
does not occur in `s` at all. -/
def pyIdx1 (sep s : Str) : Option Str :=
  match splitOnFirst s sep with
  | none => none
  | some p => some (pyIdx0 sep p.2)

/- Assign-phase output scraping, from `assign_to_projects` (lines 246-262):
   the loop over `result.stdout.splitlines()` keeping a `current_project`
   and appending each `- <domain>` line to the matching pre-seeded dict
   entry. -/

/-- The assignments dictionary: an insertion-ordered association list from
Firebase project name to its list of assigned domains (keys are unique by
construction, as in the Python `dict`). -/
abbrev AssignMap := List (Str × List Str)

/-- Python `key in assignments`. -/
def dictContainsKey (d : AssignMap) (k : Str) : Bool := d.any (fun p => p.1 == k)

/-- Python `assignments[k].append(v)` (keys are unique, so mapping over the
entries appends to exactly the entry for `k`). -/
def dictAppendAt (d : AssignMap) (k : Str) (v : Str) : AssignMap :=
  d.map (fun p => if p.1 == k then (p.1, p.2 ++ [v]) else p)

/-- The pre-seeding loop of `assign_to_projects`: one empty list per project
appearing among `self.project_mapping.values()`, first occurrence first. -/
def initAssignments (projects : List Str) : AssignMap :=
  projects.foldl (fun d p => if dictContainsKey d p then d else d ++ [(p, [])]) []

/-- The header test of the scraping loop: the line contains both
`Firebase Project` and a colon. -/
def isHeaderLine (line : Str) : Bool :=
  containsSub line (str "Firebase Project") && containsSub line (str ":")

/-- The project name taken from a header line:
`line.split(":", 1)[1].strip()`. -/
def headerName (line : Str) : Str := trimStr (pySplit1After (str ":") line)

/-- The domain-line test of the scraping loop: `line.strip().startswith("-")`. -/
def isDashLine (line : Str) : Bool := strStartsWith (trimStr line) (str "-")

/-- The domain taken from a domain line: `line.strip()[2:].strip()`. -/
def dashDomain (line : Str) : Str := trimStr ((trimStr line).drop 2)

/-- Python truthiness of the `current_project` variable: `None` and the
empty string are falsy. -/
def pyTruthy : Option Str → Bool
  | none => false
  | some s => !s.isEmpty

/-- One iteration of the scraping loop of `assign_to_projects`: the state is
the pair (current_project, assignments). -/
def assignStep (acc : Option Str × AssignMap) (line : Str) : Option Str × AssignMap :=
  if isHeaderLine line then (some (headerName line), acc.2)
  else if pyTruthy acc.1 && isDashLine line then
    match acc.1 with
    | some cur =>
      if dictContainsKey acc.2 cur then (acc.1, dictAppendAt acc.2 cur (dashDomain line))
      else acc
    | none => acc
  else acc

/-- The whole Assign-phase parser: pre-seeds the dictionary with the project
mapping's values and folds the scraping loop over the stdout lines. -/
def parseAssignments (projects : List Str) (lines : List Str) : AssignMap :=
  (lines.foldl assignStep (none, initAssignments projects)).2

/-- `assignments_count`: the sum of the lengths of all the per-project lists. -/
def assignCount (d : AssignMap) : Nat := (d.map (fun p => p.2.length)).sum

/- Verify-phase output scraping, from `verify_domains` (lines 299-311). -/

/-- `line.split(" - ")[0].split(tag)[1].strip()`; `none` models the
`IndexError` raised when `tag` occurs only after the first ` - `. -/
def extractTagged (tag line : Str) : Option Str :=
  (pyIdx1 tag (pyIdx0 (str " - ") line)).map trimStr

/-- The scraping loop of `verify_domains` over the stdout lines, accumulating
(verified_domains, failed_domains); the overall `none` models the loop being
aborted by an `IndexError` (which the phase's handler then records). -/
def parseVerifyLines : List Str → List Str × List Str → Option (List Str × List Str)
  | [], acc => some acc
  | line :: rest, acc =>
    if containsSub line (str "[SUCCESS]") && containsSub line (str " - ") then
      match extractTagged (str "[SUCCESS]") line with
      | some d => parseVerifyLines rest (acc.1 ++ [d], acc.2)
      | none => none
    else if containsSub line (str "[FAILED]") && containsSub line (str " - ") then
      match extractTagged (str "[FAILED]") line with
      | some d => parseVerifyLines rest (acc.1, acc.2 ++ [d])
      | none => none
    else parseVerifyLines rest acc

/- Configuration and the Firebase project mapping, from `__init__`
   (lines 60-96). -/

/-- The parts of the configuration document the orchestrator reads: the
`domainFamilies` mapping (each family optionally carrying a `project` field)
and the optional `domainAccountId` filter string. An absent configuration
file loads as the record with both fields `none`. -/
structure Config where
  domainFamilies : Option (List (Str × Option Str))
  domainAccountId : Option Str
deriving DecidableEq, Repr

/-- The built-in default `project_mapping` table (lines 85-96). -/
def defaultProjectMapping : List (Str × Str) :=
  [ (str "character", str "api-for-warp-drive"),
    (str "command", str "api-for-warp-drive"),
    (str "wing", str "api-for-warp-drive"),
    (str "squadron", str "api-for-warp-drive"),
    (str "brand", str "coaching2100-com"),
    (str "aixtiv", str "aixtiv-symphony"),
    (str "learning", str "academy2100-com"),
    (str "flight", str "flight-school"),
    (str "commerce", str "giftshop2100-com"),
    (str "governance", str "api-for-warp-drive") ]

/-- `self.project_mapping` as computed in `__init__`: built from
`config["domainFamilies"]` when present (missing `project` fields default to
`api-for-warp-drive`), otherwise the built-in default table. -/
def projectMapping (cfg : Config) : List (Str × Str) :=
  match cfg.domainFamilies with
  | some fams => fams.map (fun p => (p.1, p.2.getD (str "api-for-warp-drive")))
  | none => defaultProjectMapping

/- The pipeline state machine (`run_command`, the four phase methods,
   `run_full_pipeline`, `_save_results`, `_notify_completion`, `main`),
   lines 107-441. -/

/-- The exceptions the embedded code distinguishes:
`calledProcessError stderr` is the `subprocess.CalledProcessError` re-raised
by `run_command` after a non-zero exit, `indexError` is the list-index error
the Verify-phase scraping can raise, and `other` abstracts any further
exception (JSON decode errors, missing files, I/O failures) by its message. -/
inductive Exc where
  | calledProcessError (stderr : Str)
  | indexError
  | other (msg : Str)
deriving DecidableEq, Repr

/-- The names of the four pipeline phases. -/
inductive PhaseName where
  | fetch
  | categorize
  | assign
  | verify
deriving DecidableEq, Repr

/-- The entries of `self.results["errors"]`, kept structured rather than as
formatted strings: `commandFailed stderr` is the entry
`"Command failed: <stderr>"` appended by `run_command`;
`phaseFailed ph e` is the `"Domain <phase> failed: <str(e)>"` entry appended
by phase `ph`'s own handler; `pipelineFailed e` is the
`"Pipeline execution failed: <str(e)>"` entry of `run_full_pipeline`'s
handler; `notifyFailed e` is the `"Failed to update Firestore: <str(e)>"`
entry of `_notify_completion`'s handler. -/
inductive ErrEntry where
  | commandFailed (stderr : Str)
  | phaseFailed (ph : PhaseName) (e : Exc)
  | pipelineFailed (e : Exc)
  | notifyFailed (e : Exc)
deriving DecidableEq, Repr

/-- The outcome of one external command invocation, as seen by
`run_command`: `ok lines` is a zero exit with the given stdout (already
split into lines, as every consumer immediately does); `fail stderr` is a
non-zero exit (`CalledProcessError`); `exn e` is `subprocess.run` itself
raising some other exception, which `run_command` does not catch. -/
inductive CmdOutcome where
  | ok (lines : List Str)
  | fail (stderr : Str)
  | exn (e : Exc)
deriving DecidableEq, Repr

/-- `self.results`: the Run Summary aggregate initialised in `__init__`
(lines 67-76) and mutated in place by the phases. -/
structure Results where
  domains_fetched : Nat
  domains_categorized : Nat
  domains_assigned : Nat
  domains_verified : Nat
  families_identified : Nat
  success : Bool
  errors : List ErrEntry
deriving DecidableEq, Repr

/-- The initial Run Summary: all counts zero, `success` false, no errors. -/
def initialResults : Results :=
  { domains_fetched := 0, domains_categorized := 0, domains_assigned := 0,
    domains_verified := 0, families_identified := 0, success := false,
    errors := [] }

/-- The behaviour of the external world during one run: the outcome of each
of the external commands, of the JSON parses and file operations the phases
perform, and of the two possible report-write attempts. -/
structure Env where
  fetchCmd : CmdOutcome
  fetchParse : Except Exc (List Str)
  fetchWrite : Option Exc
  categorizeCmd : CmdOutcome
  categorizeLoad : Except Exc (List (Str × List Str))
  assignCmd : CmdOutcome
  verifyCmd : CmdOutcome
  saveExc1 : Option Exc
  saveExc2 : Option Exc
  notifyCmd : CmdOutcome
deriving Repr

/-- `run_command` (lines 107-125): on success it returns the stdout; on a
non-zero exit it appends `"Command failed: <stderr>"` to the errors and
re-raises; any other exception from `subprocess.run` passes through
untouched. -/
def runCommand (st : Results) (o : CmdOutcome) : Results × Except Exc (List Str) :=
  match o with
  | CmdOutcome.ok lines => (st, Except.ok lines)
  | CmdOutcome.fail stderr =>
    ({ st with errors := st.errors ++ [ErrEntry.commandFailed stderr] },
     Except.error (Exc.calledProcessError stderr))
  | CmdOutcome.exn e => (st, Except.error e)

/-- `fetch_domains` (lines 127-182): runs the listing command, parses its
JSON, applies the optional account-id filter, records `domains_fetched`,
then writes the staging file; returns the phase result's success flag. -/
def fetchDomains (cfg : Config) (env : Env) (st : Results) : Results × Bool :=
  match runCommand st env.fetchCmd with
  | (st, Except.error e) =>
    ({ st with errors := st.errors ++ [ErrEntry.phaseFailed PhaseName.fetch e] }, false)
  | (st, Except.ok _) =>
    match env.fetchParse with
    | Except.error e =>
      ({ st with errors := st.errors ++ [ErrEntry.phaseFailed PhaseName.fetch e] }, false)
    | Except.ok ds =>
      let ds :=
        match cfg.domainAccountId with
        | some acct => ds.filter (fun d => containsSub (lowerStr d) (lowerStr acct))
        | none => ds
      let st := { st with domains_fetched := ds.length }
      match env.fetchWrite with
      | some e =>
        ({ st with errors := st.errors ++ [ErrEntry.phaseFailed PhaseName.fetch e] }, false)
      | none => (st, true)

/-- `categorize_domains` (lines 184-227): runs the organizer in dry-run
mode, loads the organization map, and records `families_identified` and
`domains_categorized`. -/
def categorizeDomains (env : Env) (st : Results) : Results × Bool :=
  match runCommand st env.categorizeCmd with
  | (st, Except.error e) =>
    ({ st with errors := st.errors ++ [ErrEntry.phaseFailed PhaseName.categorize e] }, false)
  | (st, Except.ok _) =>
    match env.categorizeLoad with
    | Except.error e =>
      ({ st with errors := st.errors ++ [ErrEntry.phaseFailed PhaseName.categorize e] }, false)
    | Except.ok fams =>
      ({ st with families_identified := fams.length,
                 domains_categorized := (fams.map (fun p => p.2.length)).sum }, true)

/-- `assign_to_projects` (lines 229-280): runs the organizer in mutating
mode, scrapes its stdout with `parseAssignments` over the values of
`self.project_mapping`, and records `domains_assigned`. -/
def assignToProjects (cfg : Config) (env : Env) (st : Results) : Results × Bool :=
  match runCommand st env.assignCmd with
  | (st, Except.error e) =>
    ({ st with errors := st.errors ++ [ErrEntry.phaseFailed PhaseName.assign e] }, false)
  | (st, Except.ok lines) =>
    let asg := parseAssignments ((projectMapping cfg).map Prod.snd) lines
    ({ st with domains_assigned := assignCount asg }, true)

/-- `verify_domains` (lines 282-332): runs the verification command,
scrapes its stdout with `parseVerifyLines`, and records
`domains_verified`; a scraping `IndexError` lands in the phase handler. -/
def verifyDomains (env : Env) (st : Results) : Results × Bool :=
  match runCommand st env.verifyCmd with
  | (st, Except.error e) =>
    ({ st with errors := st.errors ++ [ErrEntry.phaseFailed PhaseName.verify e] }, false)
  | (st, Except.ok lines) =>
    match parseVerifyLines lines ([], []) with
    | none =>
      ({ st with errors := st.errors ++ [ErrEntry.phaseFailed PhaseName.verify Exc.indexError] }, false)
    | some vf => ({ st with domains_verified := vf.1.length }, true)

/-- The external command a given phase invokes. -/
def cmdOf (env : Env) : PhaseName → CmdOutcome
  | PhaseName.fetch => env.fetchCmd
  | PhaseName.categorize => env.categorizeCmd
  | PhaseName.assign => env.assignCmd
  | PhaseName.verify => env.verifyCmd

/-- Dispatches a phase by name (the four phases share the same
invoke-parse-aggregate shape). -/
def runPhase (cfg : Config) (env : Env) (ph : PhaseName) (st : Results) : Results × Bool :=
  match ph with
  | PhaseName.fetch => fetchDomains cfg env st
  | PhaseName.categorize => categorizeDomains env st
  | PhaseName.assign => assignToProjects cfg env st
  | PhaseName.verify => verifyDomains env st

/-- The gated phase sequence of `run_full_pipeline` (lines 340-352),
returning the resulting state together with the list of phases actually
invoked. -/
def runPhases (cfg : Config) (env : Env) : Results × List PhaseName :=
  let f := runPhase cfg env PhaseName.fetch initialResults
  if f.2 then
    let c := runPhase cfg env PhaseName.categorize f.1
    if c.2 then
      let a := runPhase cfg env PhaseName.assign c.1
      if a.2 then
        let v := runPhase cfg env PhaseName.verify a.1
        (v.1, [PhaseName.fetch, PhaseName.categorize, PhaseName.assign, PhaseName.verify])
      else (a.1, [PhaseName.fetch, PhaseName.categorize, PhaseName.assign])
    else (c.1, [PhaseName.fetch, PhaseName.categorize])
  else (f.1, [PhaseName.fetch])

/-- `_notify_completion` (lines 390-407): runs the Firestore update command;
any exception is caught and appended as a `notifyFailed` entry, and nothing
else in the state is touched. -/
def notifyCompletion (env : Env) (st : Results) : Results :=
  match runCommand st env.notifyCmd with
  | (st, Except.ok _) => st
  | (st, Except.error e) => { st with errors := st.errors ++ [ErrEntry.notifyFailed e] }

/-- The observable events of one run: each phase invocation, each entry into
`_save_results`, and each entry into `_notify_completion`. -/
inductive Event where
  | phase (ph : PhaseName)
  | saveReport
  | notify
deriving DecidableEq, Repr

/-- What `run_full_pipeline` leaves behind: the final `self.results`, the
ordered events of the run, and the exception, if any, that escaped the
method (only the second `_save_results` call can raise uncaught). -/
structure RunOutcome where
  results : Results
  events : List Event
  uncaught : Option Exc
deriving DecidableEq, Repr

/-- `run_full_pipeline` (lines 334-375): the gated phases, then
`_save_results`; on its success, `success := errors == []` and
`_notify_completion`; if `_save_results` raises, the handler appends a
`pipelineFailed` entry, forces `success := false`, and calls
`_save_results` a second time (whose own failure escapes uncaught). -/
def runFullPipeline (cfg : Config) (env : Env) : RunOutcome :=
  let p := runPhases cfg env
  let evs := p.2.map Event.phase
  match env.saveExc1 with
  | none =>
    let st := { p.1 with success := p.1.errors.isEmpty }
    let st := notifyCompletion env st
    { results := st, events := evs ++ [Event.saveReport, Event.notify], uncaught := none }
  | some e =>
    let st := { p.1 with errors := p.1.errors ++ [ErrEntry.pipelineFailed e], success := false }
    { results := st, events := evs ++ [Event.saveReport, Event.saveReport],
      uncaught := env.saveExc2 }

/-- The process exit code computed by `main` (line 441): 0 iff the run's
`success` flag is true. -/
def mainExitCode (r : Results) : Nat := if r.success then 0 else 1

/-- Distinguishes phase invocations from the other run events. -/
def isPhaseEvent : Event → Bool
  | Event.phase _ => true
  | Event.saveReport => false
  | Event.notify => false

/- Concrete fixtures used by the closed theorems below. -/

/-- The configuration loaded when the configuration file is absent. -/
def cfgAbsent : Config := { domainFamilies := none, domainAccountId := none }

/-- An environment in which every external interaction succeeds (with empty
outputs). -/
def envAllOk : Env :=
  { fetchCmd := CmdOutcome.ok [], fetchParse := Except.ok [], fetchWrite := none,
    categorizeCmd := CmdOutcome.ok [], categorizeLoad := Except.ok [],
    assignCmd := CmdOutcome.ok [], verifyCmd := CmdOutcome.ok [],
    saveExc1 := none, saveExc2 := none, notifyCmd := CmdOutcome.ok [] }

/-- The stdout lines of the Assign-phase example in the specification. -/
def c1Lines : List Str :=
  [ str "Firebase Project: proj-a", str "- x.com", str "- y.com",
    str "Firebase Project: proj-b", str "- z.com" ]

/-- Claim C1, counterexample: run as the code runs it — over the values of
the Phase Family Mapping, here the default one — the Assign-phase parser
does not return the claimed map on the claim's input lines: `proj-a` is not
a key of the result at all (the pre-seeded keys are the six default project
identifiers) and zero domains are assigned, because a domain line is only
recorded when the current header is an existing key of the pre-seeded
assignments dictionary. -/
theorem c1_counterexample :
    dictContainsKey (parseAssignments ((projectMapping cfgAbsent).map Prod.snd) c1Lines)
      (str "proj-a") = false ∧
    assignCount (parseAssignments ((projectMapping cfgAbsent).map Prod.snd) c1Lines) = 0 := by
  decide

/-- Claim C1, amended: the Assign-phase parser associates each `- <domain>`
line with the most recently seen `Firebase Project: <name>` header, but it
records a domain only when that header's name is among the values of the
Phase Family Mapping; when the mapping's values are exactly `proj-a` and
`proj-b`, the claim's input lines produce the map
`{proj-a: [x.com, y.com], proj-b: [z.com]}`. -/
theorem c1_amended_map :
    parseAssignments [str "proj-a", str "proj-b"] c1Lines =
      [ (str "proj-a", [str "x.com", str "y.com"]),
        (str "proj-b", [str "z.com"]) ] := by
  decide

/-- Claim C6, counterexample: a line containing both tags and the delimiter,
such as `[SUCCESS] a.com [FAILED] b.com - down`, contains `[FAILED]` and
` - ` yet contributes nothing to `failed_domains`, because the
`[SUCCESS]` branch of the `if`/`elif` chain takes precedence. -/
theorem c6_counterexample :
    containsSub (str "[SUCCESS] a.com [FAILED] b.com - down") (str "[FAILED]") = true ∧
    containsSub (str "[SUCCESS] a.com [FAILED] b.com - down") (str " - ") = true ∧
    parseVerifyLines [str "[SUCCESS] a.com [FAILED] b.com - down"] ([], []) =
      some ([str "a.com [FAILED] b.com"], []) := by
  decide

/-- Claim C6, amended: every line containing `[SUCCESS]` and ` - ` has its
extracted domain appended to `verified_domains` (when the extraction
succeeds), every line containing `[FAILED]` and ` - ` — and not
`[SUCCESS]`, which takes precedence — has its extracted domain appended to
`failed_domains` (when the extraction succeeds), and on the input lines
`["[SUCCESS] x.com - ok", "[FAILED] y.com - timeout"]` the parser returns
`verified_domains = [x.com]` and `failed_domains = [y.com]`. -/
theorem c6_amended :
    (parseVerifyLines [str "[SUCCESS] x.com - ok", str "[FAILED] y.com - timeout"] ([], []) =
      some ([str "x.com"], [str "y.com"])) ∧
    (∀ (line : Str) (rest : List Str) (acc : List Str × List Str) (d : Str),
      containsSub line (str "[SUCCESS]") = true →
      containsSub line (str " - ") = true →
      extractTagged (str "[SUCCESS]") line = some d →
      parseVerifyLines (line :: rest) acc = parseVerifyLines rest (acc.1 ++ [d], acc.2)) ∧
    (∀ (line : Str) (rest : List Str) (acc : List Str × List Str) (d : Str),
      containsSub line (str "[SUCCESS]") = false →
      containsSub line (str "[FAILED]") = true →
      containsSub line (str " - ") = true →
      extractTagged (str "[FAILED]") line = some d →
      parseVerifyLines (line :: rest) acc = parseVerifyLines rest (acc.1, acc.2 ++ [d])) := by
  refine ⟨by decide, ?_, ?_⟩
  · intro line rest acc d h1 h2 h3
    simp [parseVerifyLines, h1, h2, h3]
  · intro line rest acc d h0 h1 h2 h3
    simp [parseVerifyLines, h0, h1, h2, h3]

/-- Claim C6, witness for the amended theorem at a concrete line. -/
theorem c6_amended_witness :
    parseVerifyLines [str "[FAILED] q.com - down"] ([], []) =
      parseVerifyLines [] ([], [str "q.com"]) :=
  c6_amended.2.2 (str "[FAILED] q.com - down") [] ([], []) (str "q.com")
    (by decide) (by decide) (by decide) (by decide)

/-- Claim C8: when no `domainFamilies` mapping is loaded, the project
mapping is the fixed built-in ten-entry default table, whose keys are
`character`, `command`, `wing`, `squadron`, `brand`, `aixtiv`, `learning`,
`flight`, `commerce`, `governance`. -/
theorem c8_default_mapping (cfg : Config) (h : cfg.domainFamilies = none) :
    projectMapping cfg =
      [ (str "character", str "api-for-warp-drive"),
        (str "command", str "api-for-warp-drive"),
        (str "wing", str "api-for-warp-drive"),
        (str "squadron", str "api-for-warp-drive"),
        (str "brand", str "coaching2100-com"),
        (str "aixtiv", str "aixtiv-symphony"),
        (str "learning", str "academy2100-com"),
        (str "flight", str "flight-school"),
        (str "commerce", str "giftshop2100-com"),
        (str "governance", str "api-for-warp-drive") ] ∧
    (projectMapping cfg).map Prod.fst =
      [ str "character", str "command", str "wing", str "squadron", str "brand",
        str "aixtiv", str "learning", str "flight", str "commerce", str "governance" ] := by
  have hm : projectMapping cfg = defaultProjectMapping := by
    unfold projectMapping
    rw [h]
  rw [hm]
  exact ⟨by decide, by decide⟩

/-- Claim C8, witness: the default table at the absent configuration. -/
theorem c8_default_mapping_witness :
    projectMapping cfgAbsent =
      [ (str "character", str "api-for-warp-drive"),
        (str "command", str "api-for-warp-drive"),
        (str "wing", str "api-for-warp-drive"),
        (str "squadron", str "api-for-warp-drive"),
        (str "brand", str "coaching2100-com"),
        (str "aixtiv", str "aixtiv-symphony"),
        (str "learning", str "academy2100-com"),
        (str "flight", str "flight-school"),
        (str "commerce", str "giftshop2100-com"),
        (str "governance", str "api-for-warp-drive") ] ∧
    (projectMapping cfgAbsent).map Prod.fst =
      [ str "character", str "command", str "wing", str "squadron", str "brand",
        str "aixtiv", str "learning", str "flight", str "commerce", str "governance" ] :=
  c8_default_mapping cfgAbsent rfl

/-- Claim C10: whenever a phase's external command exits non-zero, exactly
two entries are appended to the errors for that failure — the
`Command failed: <stderr>` entry appended by `run_command` before it
re-raises, followed by the `<phase> failed: <exception>` entry appended by
the phase's own handler — and the phase's result is a failure. -/
theorem c10_two_errors (cfg : Config) (env : Env) (ph : PhaseName) (st : Results)
    (stderr : Str) (h : cmdOf env ph = CmdOutcome.fail stderr) :
    (runPhase cfg env ph st).1.errors =
      st.errors ++ [ErrEntry.commandFailed stderr,
                    ErrEntry.phaseFailed ph (Exc.calledProcessError stderr)] ∧
    (runPhase cfg env ph st).2 = false := by
  cases ph <;>
    simp only [cmdOf] at h <;>
    simp [runPhase, fetchDomains, categorizeDomains, assignToProjects, verifyDomains,
          runCommand, h]

/-- Claim C10, witness: the Verify phase with a failing command appends
exactly the two entries. -/
theorem c10_two_errors_witness :
    (runPhase cfgAbsent { envAllOk with verifyCmd := CmdOutcome.fail (str "net down") }
        PhaseName.verify initialResults).1.errors =
      initialResults.errors ++
        [ErrEntry.commandFailed (str "net down"),
         ErrEntry.phaseFailed PhaseName.verify (Exc.calledProcessError (str "net down"))] ∧
    (runPhase cfgAbsent { envAllOk with verifyCmd := CmdOutcome.fail (str "net down") }
        PhaseName.verify initialResults).2 = false :=
  c10_two_errors cfgAbsent { envAllOk with verifyCmd := CmdOutcome.fail (str "net down") }
    PhaseName.verify initialResults (str "net down") rfl

/-- No phase-invocation event is a report or notification event, so the
phase events contribute nothing to counts of the latter. -/
theorem count_map_phase_eq_zero (phs : List PhaseName) (e : Event)
    (h : ∀ ph, Event.phase ph ≠ e) : (phs.map Event.phase).count e = 0 := by
  rw [List.count_eq_zero]
  intro hmem
  rcases List.mem_map.mp hmem with ⟨ph, _, hph⟩
  exact h ph hph

/-- Claim C2, counterexample: a run in which every phase succeeds and only
the Firestore notification command fails ends with `success = true` and a
non-empty `errors` list, because `success` is computed before
`_notify_completion` appends the notification failure. -/
theorem c2_counterexample :
    (runFullPipeline cfgAbsent { envAllOk with notifyCmd := CmdOutcome.fail (str "boom") }
      ).results.success = true ∧
    (runFullPipeline cfgAbsent { envAllOk with notifyCmd := CmdOutcome.fail (str "boom") }
      ).results.errors ≠ [] := by
  decide

/-- Claim C2, amended: after every full-pipeline run, `success = false`
implies `errors` is non-empty; and whenever the notification command
succeeds (so the Notifier appends nothing after `success` is computed),
`errors` is non-empty exactly when `success = false`. -/
theorem c2_amended (cfg : Config) (env : Env) :
    ((runFullPipeline cfg env).results.success = false →
      (runFullPipeline cfg env).results.errors ≠ []) ∧
    (∀ lines : List Str, env.notifyCmd = CmdOutcome.ok lines →
      ((runFullPipeline cfg env).results.errors ≠ [] ↔
        (runFullPipeline cfg env).results.success = false)) := by
  unfold runFullPipeline notifyCompletion runCommand
  cases hs : env.saveExc1 with
  | some e => simp
  | none =>
    cases hn : env.notifyCmd with
    | ok lines => simp
    | fail stderr => simp
    | exn e => simp [hn]

/-- Claim C2, witness for the amended theorem: a run whose Categorize phase
fails and whose notification succeeds has non-empty `errors` and
`success = false`, as the equivalence demands. -/
theorem c2_amended_witness :
    (runFullPipeline cfgAbsent { envAllOk with categorizeCmd := CmdOutcome.fail (str "crash") }
      ).results.errors ≠ [] :=
  ((c2_amended cfgAbsent { envAllOk with categorizeCmd := CmdOutcome.fail (str "crash") }
    ).2 [] rfl).mpr (by decide)

/-- Claim C4, counterexample: when the first report write fails, the run
enters `run_full_pipeline`'s handler, which invokes `_save_results` a
second time — the Report Writer is invoked twice in the same run,
contradicting the claim that it is not re-invoked. -/
theorem c4_counterexample :
    ({ envAllOk with saveExc1 := some (Exc.other (str "disk full")) } : Env).saveExc1.isSome
        = true ∧
    (runFullPipeline cfgAbsent { envAllOk with saveExc1 := some (Exc.other (str "disk full")) }
      ).events.count Event.saveReport = 2 := by
  decide

/-- Claim C4, amended: if persisting the report fails, the failure is
appended to `errors` (as the handler's pipeline-execution-failure entry),
`success` is forced to `false`, the Report Writer is invoked a second time
within the same run by the failure handler, and the Notifier is never
invoked. -/
theorem c4_amended (cfg : Config) (env : Env) (e : Exc) (h : env.saveExc1 = some e) :
    (runFullPipeline cfg env).results.errors =
      (runPhases cfg env).1.errors ++ [ErrEntry.pipelineFailed e] ∧
    (runFullPipeline cfg env).results.success = false ∧
    (runFullPipeline cfg env).events.count Event.saveReport = 2 ∧
    (runFullPipeline cfg env).events.count Event.notify = 0 := by
  unfold runFullPipeline
  rw [h]
  refine ⟨rfl, rfl, ?_, ?_⟩
  · simp [List.count_append,
      count_map_phase_eq_zero (runPhases cfg env).2 Event.saveReport (by intro ph hph; cases hph)]
  · simp [List.count_append,
      count_map_phase_eq_zero (runPhases cfg env).2 Event.notify (by intro ph hph; cases hph)]

/-- Claim C4, witness: the amended theorem at a concrete failing write. -/
theorem c4_amended_witness :
    (runFullPipeline cfgAbsent { envAllOk with saveExc1 := some (Exc.other (str "read-only")) }
      ).results.errors =
      (runPhases cfgAbsent { envAllOk with saveExc1 := some (Exc.other (str "read-only")) }
        ).1.errors ++ [ErrEntry.pipelineFailed (Exc.other (str "read-only"))] ∧
    (runFullPipeline cfgAbsent { envAllOk with saveExc1 := some (Exc.other (str "read-only")) }
      ).results.success = false ∧
    (runFullPipeline cfgAbsent { envAllOk with saveExc1 := some (Exc.other (str "read-only")) }
      ).events.count Event.saveReport = 2 ∧
    (runFullPipeline cfgAbsent { envAllOk with saveExc1 := some (Exc.other (str "read-only")) }
      ).events.count Event.notify = 0 :=
  c4_amended cfgAbsent { envAllOk with saveExc1 := some (Exc.other (str "read-only")) }
    (Exc.other (str "read-only")) rfl

/-- Claim C5: when the report write succeeds (so `success` is computed and
the Notifier runs) and the Notifier's command then fails, the final
`success` still equals the value computed before notification, the
notification failure is appended to `errors` (the executor's entry followed
by the handler's entry), and the process exit code is exactly the one the
pre-notification `success` determines. -/
theorem c5_notify_frame (cfg : Config) (env : Env) (stderr : Str)
    (h1 : env.saveExc1 = none) (h2 : env.notifyCmd = CmdOutcome.fail stderr) :
    (runFullPipeline cfg env).results.success = (runPhases cfg env).1.errors.isEmpty ∧
    (runFullPipeline cfg env).results.errors =
      (runPhases cfg env).1.errors ++
        [ErrEntry.commandFailed stderr,
         ErrEntry.notifyFailed (Exc.calledProcessError stderr)] ∧
    mainExitCode (runFullPipeline cfg env).results =
      (if (runPhases cfg env).1.errors.isEmpty then 0 else 1) := by
  unfold runFullPipeline notifyCompletion runCommand mainExitCode
  rw [h1, h2]
  simp

/-- Claim C5, witness: a run with only a notification failure keeps
`success` at the precomputed value and exit code 0. -/
theorem c5_notify_frame_witness :
    (runFullPipeline cfgAbsent { envAllOk with notifyCmd := CmdOutcome.fail (str "quota") }
      ).results.success =
      (runPhases cfgAbsent { envAllOk with notifyCmd := CmdOutcome.fail (str "quota") }
        ).1.errors.isEmpty ∧
    (runFullPipeline cfgAbsent { envAllOk with notifyCmd := CmdOutcome.fail (str "quota") }
      ).results.errors =
      (runPhases cfgAbsent { envAllOk with notifyCmd := CmdOutcome.fail (str "quota") }
        ).1.errors ++
        [ErrEntry.commandFailed (str "quota"),
         ErrEntry.notifyFailed (Exc.calledProcessError (str "quota"))] ∧
    mainExitCode
        (runFullPipeline cfgAbsent { envAllOk with notifyCmd := CmdOutcome.fail (str "quota") }
          ).results =
      (if (runPhases cfgAbsent { envAllOk with notifyCmd := CmdOutcome.fail (str "quota") }
            ).1.errors.isEmpty then 0 else 1) :=
  c5_notify_frame cfgAbsent { envAllOk with notifyCmd := CmdOutcome.fail (str "quota") }
    (str "quota") rfl rfl

/-- The Fetch phase never writes the counts owned by the downstream phases. -/
theorem fetchDomains_preserves_counts (cfg : Config) (env : Env) (st : Results) :
    (fetchDomains cfg env st).1.domains_categorized = st.domains_categorized ∧
    (fetchDomains cfg env st).1.families_identified = st.families_identified ∧
    (fetchDomains cfg env st).1.domains_assigned = st.domains_assigned ∧
    (fetchDomains cfg env st).1.domains_verified = st.domains_verified := by
  unfold fetchDomains runCommand
  cases env.fetchCmd <;> cases env.fetchParse <;> cases env.fetchWrite <;> simp

/-- `_notify_completion` only ever touches the errors list. -/
theorem notifyCompletion_preserves (env : Env) (st : Results) :
    (notifyCompletion env st).domains_categorized = st.domains_categorized ∧
    (notifyCompletion env st).families_identified = st.families_identified ∧
    (notifyCompletion env st).domains_assigned = st.domains_assigned ∧
    (notifyCompletion env st).domains_verified = st.domains_verified := by
  unfold notifyCompletion runCommand
  cases env.notifyCmd <;> simp

/-- The report-saving and notification tail of `run_full_pipeline` never
changes the four downstream counts of the Run Summary. -/
theorem runFullPipeline_counts (cfg : Config) (env : Env) :
    (runFullPipeline cfg env).results.domains_categorized
        = (runPhases cfg env).1.domains_categorized ∧
    (runFullPipeline cfg env).results.families_identified
        = (runPhases cfg env).1.families_identified ∧
    (runFullPipeline cfg env).results.domains_assigned
        = (runPhases cfg env).1.domains_assigned ∧
    (runFullPipeline cfg env).results.domains_verified
        = (runPhases cfg env).1.domains_verified := by
  unfold runFullPipeline notifyCompletion runCommand
  cases env.saveExc1 <;> cases env.notifyCmd <;> simp

/-- Claim C3: in every full-pipeline run whose Fetch phase fails, the only
phase ever invoked is Fetch — Categorize, Assign and Verify never run — and
the final Run Summary's `domains_categorized`, `families_identified`,
`domains_assigned` and `domains_verified` are all 0. -/
theorem c3_gating (cfg : Config) (env : Env)
    (h : (runPhase cfg env PhaseName.fetch initialResults).2 = false) :
    (runFullPipeline cfg env).events.filter isPhaseEvent = [Event.phase PhaseName.fetch] ∧
    (runFullPipeline cfg env).results.domains_categorized = 0 ∧
    (runFullPipeline cfg env).results.families_identified = 0 ∧
    (runFullPipeline cfg env).results.domains_assigned = 0 ∧
    (runFullPipeline cfg env).results.domains_verified = 0 := by
  have hp : runPhases cfg env =
      ((runPhase cfg env PhaseName.fetch initialResults).1, [PhaseName.fetch]) := by
    simp [runPhases, h]
  have hfetch := fetchDomains_preserves_counts cfg env initialResults
  have hcounts := runFullPipeline_counts cfg env
  have hev : (runFullPipeline cfg env).events.filter isPhaseEvent
      = [Event.phase PhaseName.fetch] := by
    unfold runFullPipeline
    rw [hp]
    cases env.saveExc1 <;> simp [isPhaseEvent]
  refine ⟨hev, ?_, ?_, ?_, ?_⟩
  · rw [hcounts.1, hp]
    show (fetchDomains cfg env initialResults).1.domains_categorized = 0
    rw [hfetch.1]
    rfl
  · rw [hcounts.2.1, hp]
    show (fetchDomains cfg env initialResults).1.families_identified = 0
    rw [hfetch.2.1]
    rfl
  · rw [hcounts.2.2.1, hp]
    show (fetchDomains cfg env initialResults).1.domains_assigned = 0
    rw [hfetch.2.2.1]
    rfl
  · rw [hcounts.2.2.2, hp]
    show (fetchDomains cfg env initialResults).1.domains_verified = 0
    rw [hfetch.2.2.2]
    rfl

/-- Claim C3, witness: a run whose fetch command fails invokes only Fetch
and leaves the four downstream counts at 0. -/
theorem c3_gating_witness :
    (runFullPipeline cfgAbsent { envAllOk with fetchCmd := CmdOutcome.fail (str "api down") }
      ).events.filter isPhaseEvent = [Event.phase PhaseName.fetch] ∧
    (runFullPipeline cfgAbsent { envAllOk with fetchCmd := CmdOutcome.fail (str "api down") }
      ).results.domains_categorized = 0 ∧
    (runFullPipeline cfgAbsent { envAllOk with fetchCmd := CmdOutcome.fail (str "api down") }
      ).results.families_identified = 0 ∧
    (runFullPipeline cfgAbsent { envAllOk with fetchCmd := CmdOutcome.fail (str "api down") }
      ).results.domains_assigned = 0 ∧
    (runFullPipeline cfgAbsent { envAllOk with fetchCmd := CmdOutcome.fail (str "api down") }
      ).results.domains_verified = 0 :=
  c3_gating cfgAbsent { envAllOk with fetchCmd := CmdOutcome.fail (str "api down") } (by decide)

/-- Claim C7: a `- <domain>` line that is not itself a header and is
encountered before any `Firebase Project:` header is silently dropped by
the Assign-phase parser: removing it changes neither the parsed assignments
(so it joins no project's list and adds nothing to the assignment count)
nor anything in the Assign phase's outcome — in particular no error is
recorded for it. -/
theorem c7_headerless_dropped (cfg : Config) (st : Results) (projects : List Str)
    (line : Str) (rest : List Str) (env env2 : Env)
    (hdash : isDashLine line = true) (hhdr : isHeaderLine line = false)
    (h1 : env.assignCmd = CmdOutcome.ok (line :: rest))
    (h2 : env2.assignCmd = CmdOutcome.ok rest) :
    parseAssignments projects (line :: rest) = parseAssignments projects rest ∧
    assignToProjects cfg env st = assignToProjects cfg env2 st := by
  have hpa : ∀ ps : List Str, parseAssignments ps (line :: rest) = parseAssignments ps rest := by
    intro ps
    have hstep : assignStep (none, initAssignments ps) line = (none, initAssignments ps) := by
      simp [assignStep, hhdr, pyTruthy]
    simp [parseAssignments, hstep]
  refine ⟨hpa projects, ?_⟩
  unfold assignToProjects runCommand
  rw [h1, h2]
  simp [hpa]

/-- Claim C7, witness: a headerless domain line on a concrete input. -/
theorem c7_headerless_dropped_witness :
    parseAssignments [str "p"] [str "- a.com", str "Firebase Project: p", str "- b.com"] =
      parseAssignments [str "p"] [str "Firebase Project: p", str "- b.com"] ∧
    assignToProjects cfgAbsent
        { envAllOk with assignCmd :=
            CmdOutcome.ok [str "- a.com", str "Firebase Project: p", str "- b.com"] }
        initialResults =
      assignToProjects cfgAbsent
        { envAllOk with assignCmd :=
            CmdOutcome.ok [str "Firebase Project: p", str "- b.com"] }
        initialResults :=
  c7_headerless_dropped cfgAbsent initialResults [str "p"] (str "- a.com")
    [str "Firebase Project: p", str "- b.com"]
    { envAllOk with assignCmd :=
        CmdOutcome.ok [str "- a.com", str "Firebase Project: p", str "- b.com"] }
    { envAllOk with assignCmd :=
        CmdOutcome.ok [str "Firebase Project: p", str "- b.com"] }
    (by decide) (by decide) rfl rfl

/-- Appending a domain to an existing entry leaves the key set unchanged. -/
theorem dictContainsKey_dictAppendAt (d : AssignMap) (c v k : Str) :
    dictContainsKey (dictAppendAt d c v) k = dictContainsKey d k := by
  induction d with
  | nil => rfl
  | cons p ps ih =>
    simp only [dictAppendAt, List.map_cons, dictContainsKey, List.any_cons] at ih ⊢
    by_cases h : (p.1 == c) = true
    · rw [if_pos h, ih]
    · rw [if_neg h, ih]

/-- One step of the Assign-phase scraping loop leaves the key set of the
assignments dictionary unchanged. -/
theorem assignStep_keys (cur : Option Str) (d : AssignMap) (line k : Str) :
    dictContainsKey (assignStep (cur, d) line).2 k = dictContainsKey d k := by
  cases cur with
  | none =>
    by_cases h1 : isHeaderLine line = true
    · simp [assignStep, h1]
    · simp [assignStep, h1, pyTruthy]
  | some c =>
    by_cases h1 : isHeaderLine line = true
    · simp [assignStep, h1]
    · by_cases h2 : (pyTruthy (some c) && isDashLine line) = true
      · by_cases h3 : dictContainsKey d c = true
        · simp [assignStep, h1, h2, h3, dictContainsKey_dictAppendAt]
        · simp [assignStep, h1, h2, h3]
      · simp [assignStep, h1, h2]

/-- The whole scraping loop leaves the key set unchanged. -/
theorem foldl_assignStep_keys (lines : List Str) (acc : Option Str × AssignMap) (k : Str) :
    dictContainsKey (lines.foldl assignStep acc).2 k = dictContainsKey acc.2 k := by
  induction lines generalizing acc with
  | nil => rfl
  | cons l ls ih =>
    rw [List.foldl_cons, ih]
    rcases acc with ⟨cur, d⟩
    exact assignStep_keys cur d l k

/-- Appending a fresh empty entry adds exactly its key. -/
theorem dictContainsKey_append_single (d : AssignMap) (p k : Str) :
    dictContainsKey (d ++ [(p, [])]) k = (dictContainsKey d k || p == k) := by
  simp [dictContainsKey]

/-- Pre-seeding gives the dictionary exactly the mapping's project values
as keys. -/
theorem initAssignments_keys (projects : List Str) (k : Str) :
    dictContainsKey (initAssignments projects) k = true ↔ k ∈ projects := by
  have main : ∀ (ps : List Str) (d : AssignMap),
      dictContainsKey
          (ps.foldl (fun d p => if dictContainsKey d p then d else d ++ [(p, [])]) d) k = true ↔
        (dictContainsKey d k = true ∨ k ∈ ps) := by
    intro ps
    induction ps with
    | nil =>
      intro d
      simp
    | cons p ps ih =>
      intro d
      rw [List.foldl_cons]
      by_cases h : dictContainsKey d p = true
      · rw [if_pos h, ih]
        constructor
        · rintro (hd | hm)
          · exact Or.inl hd
          · exact Or.inr (List.mem_cons_of_mem p hm)
        · rintro (hd | hm)
          · exact Or.inl hd
          · rcases List.mem_cons.mp hm with hk | hk
            · subst hk
              exact Or.inl h
            · exact Or.inr hk
      · rw [if_neg h, ih, dictContainsKey_append_single]
        constructor
        · rintro (hd | hm)
          · rcases Bool.or_eq_true_iff.mp hd with hd | hp
            · exact Or.inl hd
            · exact Or.inr (List.mem_cons.mpr (Or.inl (beq_iff_eq.mp hp).symm))
          · exact Or.inr (List.mem_cons_of_mem p hm)
        · rintro (hd | hm)
          · exact Or.inl (Bool.or_eq_true_iff.mpr (Or.inl hd))
          · rcases List.mem_cons.mp hm with hk | hk
            · subst hk
              exact Or.inl (Bool.or_eq_true_iff.mpr (Or.inr (beq_iff_eq.mpr rfl)))
            · exact Or.inr hk
  rw [initAssignments, main]
  simp [dictContainsKey]

/-- From any two loop states that share the same dictionary, one holding a
current project that is not a key and the other holding none, the scraping
loop computes the same dictionary. -/
theorem foldl_assignStep_unknown (rest : List Str) (name : Str) (d : AssignMap)
    (h : dictContainsKey d name = false) :
    (rest.foldl assignStep (some name, d)).2 = (rest.foldl assignStep (none, d)).2 := by
  induction rest generalizing d with
  | nil => rfl
  | cons l ls ih =>
    rw [List.foldl_cons, List.foldl_cons]
    by_cases h1 : isHeaderLine l = true
    · simp only [assignStep, h1, if_pos]
    · by_cases h2 : (pyTruthy (some name) && isDashLine l) = true
      · have hl : assignStep (some name, d) l = (some name, d) := by
          simp [assignStep, h1, h2, h]
        have hr : assignStep (none, d) l = (none, d) := by
          simp [assignStep, h1, pyTruthy]
        rw [hl, hr]
        exact ih d h
      · have hl : assignStep (some name, d) l = (some name, d) := by
          simp [assignStep, h1, h2]
        have hr : assignStep (none, d) l = (none, d) := by
          simp [assignStep, h1, pyTruthy]
        rw [hl, hr]
        exact ih d h

/-- All entries of the pre-seeded dictionary carry the empty list. -/
theorem initAssignments_values (projects : List Str) (p : Str × List Str)
    (hmem : p ∈ initAssignments projects) : p.2 = [] := by
  have main : ∀ (ps : List Str) (d : AssignMap),
      (∀ q ∈ d, q.2 = ([] : List Str)) →
      ∀ q ∈ ps.foldl (fun d p => if dictContainsKey d p then d else d ++ [(p, [])]) d,
        q.2 = ([] : List Str) := by
    intro ps
    induction ps with
    | nil =>
      intro d hd
      exact hd
    | cons p ps ih =>
      intro d hd
      rw [List.foldl_cons]
      by_cases h : dictContainsKey d p = true
      · rw [if_pos h]
        exact ih d hd
      · rw [if_neg h]
        refine ih (d ++ [(p, [])]) ?_
        intro q hq
        rcases List.mem_append.mp hq with hq | hq
        · exact hd q hq
        · rcases List.mem_singleton.mp hq with rfl
          rfl
  exact main projects [] (by intro q hq; cases hq) p hmem

/-- Claim C9: for every stdout text, the assignment map's key set is exactly
the set of project identifiers occurring as values of the Phase Family
Mapping; on the empty text every key starts with (and keeps) an empty list;
and a whole header whose name is not among those identifiers is irrelevant —
the domains scraped under it are dropped, so they change neither the map nor
the `domains_assigned` count. -/
theorem c9_key_set_and_unknown_headers :
    (∀ (projects : List Str) (lines : List Str) (k : Str),
      dictContainsKey (parseAssignments projects lines) k = true ↔ k ∈ projects) ∧
    (∀ (projects : List Str) (p : Str × List Str),
      p ∈ parseAssignments projects [] → p.2 = []) ∧
    (∀ (projects : List Str) (hline : Str) (rest : List Str),
      isHeaderLine hline = true →
      headerName hline ∉ projects →
      parseAssignments projects (hline :: rest) = parseAssignments projects rest ∧
      assignCount (parseAssignments projects (hline :: rest)) =
        assignCount (parseAssignments projects rest)) := by
  refine ⟨?_, ?_, ?_⟩
  · intro projects lines k
    rw [parseAssignments, foldl_assignStep_keys]
    exact initAssignments_keys projects k
  · intro projects p hmem
    exact initAssignments_values projects p hmem
  · intro projects hline rest hhdr hnk
    have hkey : dictContainsKey (initAssignments projects) (headerName hline) = false := by
      rcases hb : dictContainsKey (initAssignments projects) (headerName hline) with _ | _
      · rfl
      · exact absurd ((initAssignments_keys projects (headerName hline)).mp hb) hnk
    have hstep : assignStep (none, initAssignments projects) hline =
        (some (headerName hline), initAssignments projects) := by
      simp [assignStep, hhdr]
    have hmain : parseAssignments projects (hline :: rest) = parseAssignments projects rest := by
      rw [parseAssignments, List.foldl_cons, hstep, parseAssignments]
      exact foldl_assignStep_unknown rest (headerName hline) (initAssignments projects) hkey
    exact ⟨hmain, by rw [hmain]⟩

/-- Claim C9, witness: concrete instances of all three parts. -/
theorem c9_key_set_witness :
    (dictContainsKey
        (parseAssignments [str "p", str "q"] [str "Firebase Project: p", str "- a.com"])
        (str "q") = true ↔ str "q" ∈ [str "p", str "q"]) ∧
    parseAssignments [str "p"] (str "Firebase Project: zzz" :: [str "- a.com"]) =
      parseAssignments [str "p"] [str "- a.com"] := by
  constructor
  · exact (c9_key_set_and_unknown_headers.1 [str "p", str "q"]
      [str "Firebase Project: p", str "- a.com"] (str "q"))
  · exact (c9_key_set_and_unknown_headers.2.2 [str "p"] (str "Firebase Project: zzz")
      [str "- a.com"] (by decide) (by decide)).1

end DomainAutoscale


